import Mathlib

/-!
Shallow embedding of the awsp AWS profile switcher: the interactive Node
selector `index.js` and the `_awsp` shell wrapper.  Strings from the sources
are modelled as lists of characters; the external services (the
`aws configure get` configuration store, the `aws sts assume-role` call
together with the builtin JSON parse, the filesystem, the interactive prompt
library and the shell environment) are modelled as explicit parameters.
-/

/-- Strings from the JS/shell sources are modelled as lists of characters. -/
abbrev Str := List Char

/-- Converts a Lean string literal into the character-list model. -/
def chars (s : String) : Str := s.toList

/-! ## index.js: profile extraction (`REGEX.profile`, `REGEX.bracketsRemoval`) -/

/-- The literal text `[profile ` opening a profile heading, from
`REGEX.profile = /\[profile .*]/g` in index.js. -/
def profileTag : Str := chars "[profile "

/-- True on characters the JS regex metacharacter `.` refuses to match:
the line terminators LF, CR, U+2028 and U+2029. -/
def isJsLineTerminator (c : Char) : Bool :=
  c = '\n' || c = '\r' || c = Char.ofNat 0x2028 || c = Char.ofNat 0x2029

/-- Index of the last `]` in a list of characters, or `none`. -/
def findLastRBracket : Str → Option Nat
  | [] => none
  | c :: cs =>
    match findLastRBracket cs with
    | some i => some (i + 1)
    | none => if c = ']' then some 0 else none

/-- One attempt of the JS regex `/\[profile .*]/` anchored at the head of the
input: the literal `[profile `, then the greedy `.*` followed by `]`, which
matches up to the last `]` before a line terminator.  Returns the matched
text and the remaining input. -/
def matchProfileAt (cs : Str) : Option (Str × Str) :=
  if profileTag.isPrefixOf cs then
    let rest := cs.drop profileTag.length
    let line := rest.takeWhile (fun c => !isJsLineTerminator c)
    match findLastRBracket line with
    | some i => some (profileTag ++ rest.take (i + 1), rest.drop (i + 1))
    | none => none
  else none

/-- Global scan of `data.match(REGEX.profile)`: successive non-overlapping
matches, advancing one character after a failed attempt.  The fuel argument
bounds the recursion; every step consumes at least one input character, so
fuel equal to the input length is always sufficient. -/
def scanAux : Nat → Str → List Str
  | 0, _ => []
  | _ + 1, [] => []
  | fuel + 1, c :: cs =>
    match matchProfileAt (c :: cs) with
    | some (m, rest) => m :: scanAux fuel rest
    | none => scanAux fuel cs

/-- All matches of `REGEX.profile` in the config file content
(`data.match(REGEX.profile)` in `promptProfileChoice`); the empty list
models the `null` result. -/
def scanProfileMatches (data : Str) : List Str := scanAux data.length data

/-- Global replacement of `REGEX.bracketsRemoval = /(\[profile )|(\])/g` by
the empty string, as in `match.replace(REGEX.bracketsRemoval, '')`:
the alternation deletes each occurrence of `[profile ` and each `]`. -/
def stripAux : Nat → Str → Str
  | 0, _ => []
  | _ + 1, [] => []
  | fuel + 1, c :: cs =>
    if profileTag.isPrefixOf (c :: cs) then
      stripAux fuel ((c :: cs).drop profileTag.length)
    else if c = ']' then stripAux fuel cs
    else c :: stripAux fuel cs

/-- Removes every `[profile ` and every `]` from a matched heading. -/
def stripBrackets (m : Str) : Str := stripAux m.length m

/-- The literal default profile name `DEFAULTS.profile = 'default'`. -/
def defaultProfileName : Str := chars "default"

/-- The choice list built by `promptProfileChoice` in index.js: `none` when
`data.match` returned `null` (the guidance branch), otherwise the stripped
heading names followed by the pushed literal `default`. -/
def promptProfileChoices (data : Str) : Option (List Str) :=
  let ms := scanProfileMatches data
  if ms.isEmpty then none
  else some (ms.map stripBrackets ++ [defaultProfileName])

/-! ## index.js: MFA code validation (`promptMfaCode`) -/

/-- Result of the inquirer `validate` callback: `accept` for `true`,
`reprompt msg` for a returned message string, on which the prompt library
re-asks rather than raising an error. -/
inductive MfaValidation where
  | accept
  | reprompt (msg : Str)
deriving DecidableEq

/-- The validation message of `promptMfaCode` with
`DEFAULTS.mfaCodeLength = 6` interpolated. -/
def mfaErrorMsg : Str := chars "Please enter a valid 6-digit MFA code"

/-- The JS test `/^\d+$/.test(value)`: one or more ASCII digits spanning the
whole string. -/
def mfaRegexTest (v : Str) : Bool := !v.isEmpty && v.all Char.isDigit

/-- The `validate` callback of `promptMfaCode`:
`!value || value.length !== 6 || !/^\d+$/.test(value)` yields the message
(re-prompt), anything else is accepted. -/
def mfaValidate (v : Str) : MfaValidation :=
  if v.isEmpty || v.length != 6 || !mfaRegexTest v then .reprompt mfaErrorMsg
  else .accept

/-! ## The `aws configure get` configuration store -/

/-- The AWS CLI configuration store queried through
`aws configure get <profile>.<key>`, modelled as an association list from
(profile, key) to the produced value; `none` models a failing query
(profile or key absent, command error), which makes `execSync` throw and a
shell command substitution produce the empty string. -/
abbrev Store := List ((Str × Str) × Str)

/-- One `aws configure get profile.key` query against the modelled store. -/
def configureGet (store : Store) (profile key : Str) : Option Str :=
  store.lookup (profile, key)

/-- Whitespace for the JS `String.prototype.trim` (the ASCII part). -/
def isJsSpace (c : Char) : Bool :=
  c = ' ' || c = '\t' || c = '\n' || c = '\r' || c = '\x0b' || c = '\x0c'

/-- The JS `.trim()` applied to query output in index.js. -/
def jsTrim (s : Str) : Str :=
  ((s.dropWhile isJsSpace).reverse.dropWhile isJsSpace).reverse

/-- `hasRoleConfiguration` from index.js: queries `role_arn` then
`mfa_serial`; a thrown query is caught and yields `false`; otherwise the JS
truthiness of `roleArn && mfaSerial` on the trimmed strings. -/
def hasRoleConfiguration (store : Store) (profile : Str) : Bool :=
  match configureGet store profile (chars "role_arn") with
  | none => false
  | some ra =>
    match configureGet store profile (chars "mfa_serial") with
    | none => false
    | some ms => !(jsTrim ra).isEmpty && !(jsTrim ms).isEmpty

/-! ## JS values for the parsed AssumeRole response -/

/-- The JS values relevant to credential extraction: `undefined`, `null`,
strings and plain objects.  Property access on `undefined` or `null` throws
a TypeError; on any other value a missing property reads as `undefined`. -/
inductive JsValue where
  | undef
  | null
  | str (s : Str)
  | obj (fields : List (Str × JsValue))

/-- JS property access `v[k]`: `none` models the thrown TypeError. -/
def getProp : JsValue → Str → Option JsValue
  | .obj fs, k => some ((fs.lookup k).getD .undef)
  | .str _, _ => some .undef
  | .undef, _ => none
  | .null, _ => none

/-- JS template-literal interpolation of a value into a string. -/
def jsToString : JsValue → Str
  | .undef => chars "undefined"
  | .null => chars "null"
  | .str s => s
  | .obj _ => chars "[object Object]"

/-! ## The STS AssumeRole command -/

/-- The parameters of one `aws sts assume-role` invocation: the
`--profile` source identity, `--role-arn`, `--role-session-name`, and the
optional pair `--serial-number`/`--token-code`. -/
structure StsCommand where
  profile : Str
  roleArn : Str
  sessionName : Str
  mfa : Option (Str × Str)
deriving DecidableEq

/-- The fixed region constant `CONFIG.awsRegion = 'ap-northeast-1'`. -/
def awsRegionValue : Str := chars "ap-northeast-1"

/-- The literal `export ` opening each credential line. -/
def exportTag : Str := chars "export "

/-- One `export KEY=value` line of the credentials temp file. -/
def exportLine (k v : Str) : Str := exportTag ++ (k ++ '=' :: v)

/-- The six-line template written by `performAssumeRole` to
`CONFIG.credentialsFile` (the lines are joined by `\n`, no trailing
newline). -/
def credentialsContent (ak sk st p : Str) : Str :=
  exportLine (chars "AWS_ACCESS_KEY_ID") ak ++ '\n' ::
  (exportLine (chars "AWS_SECRET_ACCESS_KEY") sk ++ '\n' ::
  (exportLine (chars "AWS_REGION") awsRegionValue ++ '\n' ::
  (exportLine (chars "AWS_SESSION_TOKEN") st ++ '\n' ::
  (exportLine (chars "AWS_PROFILE") p ++ '\n' ::
  exportLine (chars "AWS_DEFAULT_PROFILE") p))))

/-- The assume-role command built by `performAssumeRole` in index.js, after
the two `getAwsConfig` lookups (each throwing lookup aborts with the
caught error): source profile is the literal `default`, session name is
`` `${profile}-session` ``, ARN and serial are the trimmed lookup results. -/
def assumeRoleCommandJs (store : Store) (profile mfaCode : Str) :
    Option StsCommand :=
  match configureGet store profile (chars "role_arn") with
  | none => none
  | some ra =>
    match configureGet store profile (chars "mfa_serial") with
    | none => none
    | some ms =>
      some { profile := chars "default", roleArn := jsTrim ra,
             sessionName := profile ++ chars "-session",
             mfa := some (jsTrim ms, mfaCode) }

/-- The field extraction of `performAssumeRole`:
`credentials.Credentials.{AccessKeyId,SecretAccessKey,SessionToken}` with
JS semantics — an access on `undefined`/`null` throws (`none`), a missing
field on an object reads as `undefined` and is kept. -/
def extractCreds (v : JsValue) : Option (JsValue × JsValue × JsValue) :=
  match getProp v (chars "Credentials") with
  | none => none
  | some credsV =>
    match getProp credsV (chars "AccessKeyId") with
    | none => none
    | some ak =>
      match getProp credsV (chars "SecretAccessKey") with
      | none => none
      | some sk =>
        match getProp credsV (chars "SessionToken") with
        | none => none
        | some st => some (ak, sk, st)

/-- The external services used by index.js: the configuration store, and
the composite of `execSync(assumeRoleCommand)` followed by `JSON.parse`,
which yields `none` when the command exits non-zero or the output is not
JSON (both throw), and the parsed value otherwise. -/
structure JsEnv where
  store : Store
  sts : StsCommand → Option JsValue

/-- `performAssumeRole` from index.js as a state transformer on the
credentials temp file: returns the JS boolean result and the file content
after the call (`credFile0` is the prior content, `none` meaning absent).
Any throw inside the `try` — failing lookup, failing command, unparsable
JSON, property access on a missing `Credentials` — is caught and yields
`(false, unchanged file)`; on the success path `fs.writeFileSync`
overwrites the file with the six-line template, interpolating possibly
`undefined` fields as text. -/
def performAssumeRole (env : JsEnv) (credFile0 : Option Str)
    (profile mfaCode : Str) : Bool × Option Str :=
  match assumeRoleCommandJs env.store profile mfaCode with
  | none => (false, credFile0)
  | some cmd =>
    match env.sts cmd with
    | none => (false, credFile0)
    | some json =>
      match extractCreds json with
      | none => (false, credFile0)
      | some (ak, sk, st) =>
        (true, some (credentialsContent (jsToString ak) (jsToString sk)
                       (jsToString st) profile))

/-! ## index.js: main flow -/

/-- The interactive inputs of index.js: the inquirer list selection over the
offered choices, and the MFA prompt result (`none` models a prompt
failure, caught by `main` with exit code 1). -/
structure PromptEnv where
  choose : List Str → Str
  mfaInput : Option Str

/-- Observable outcome of one run of `main` in index.js: the content of the
profile file `~/.awsp` and the credentials file `~/.awsp-credentials`
afterwards, the process exit code, and whether the no-profiles guidance
was printed. -/
structure MainOutcome where
  profileFile : Option Str
  credFile : Option Str
  exitCode : Nat
  printedGuidance : Bool
deriving DecidableEq

/-- The `main` flow of index.js over a given config file content:
no headings prints guidance and returns (exit 0, files untouched);
otherwise the selection is written to the profile file by `writeToConfig`,
then `hasRoleConfiguration` decides whether the MFA prompt and
`performAssumeRole` run, a failing assume (or a failing MFA prompt)
exiting with code 1. -/
def mainRun (js : JsEnv) (ui : PromptEnv) (profileFile0 credFile0 : Option Str)
    (data : Str) : MainOutcome :=
  match promptProfileChoices data with
  | none =>
    { profileFile := profileFile0, credFile := credFile0, exitCode := 0,
      printedGuidance := true }
  | some choices =>
    let p := ui.choose choices
    if hasRoleConfiguration js.store p then
      match ui.mfaInput with
      | none =>
        { profileFile := some p, credFile := credFile0, exitCode := 1,
          printedGuidance := false }
      | some code =>
        match performAssumeRole js credFile0 p code with
        | (true, cred) =>
          { profileFile := some p, credFile := cred, exitCode := 0,
            printedGuidance := false }
        | (false, cred) =>
          { profileFile := some p, credFile := cred, exitCode := 1,
            printedGuidance := false }
    else
      { profileFile := some p, credFile := credFile0, exitCode := 0,
        printedGuidance := false }

/-! ## The `_awsp` shell wrapper -/

/-- The exported shell environment, newest binding first. -/
abbrev EnvMap := List (Str × Str)

/-- `export K=V` in the wrapper shell. -/
def setVar (e : EnvMap) (k v : Str) : EnvMap := (k, v) :: e

/-- `unset K` in the wrapper shell. -/
def unsetVar (e : EnvMap) (k : Str) : EnvMap :=
  e.filter (fun kv => !(kv.1 == k))

/-- Shell `${K:-d}`: the default when the variable is unset or empty. -/
def envGetD (e : EnvMap) (k d : Str) : Str :=
  match e.lookup k with
  | some v => if v = [] then d else v
  | none => d

/-- Splitting file content into lines at `\n`, as `eval "$(cat file)"`
executes the file line by line. -/
def splitLines : Str → List Str
  | [] => [[]]
  | c :: cs =>
    if c = '\n' then [] :: splitLines cs
    else
      match splitLines cs with
      | [] => [[c]]
      | l :: ls => (c :: l) :: ls

/-- Splits `k=v` at the first `=`. -/
def splitFirstEq : Str → Option (Str × Str)
  | [] => none
  | c :: cs =>
    if c = '=' then some ([], cs)
    else
      match splitFirstEq cs with
      | some (k, v) => some (c :: k, v)
      | none => none

/-- Interpretation of one line of the credentials temp file under `eval`:
an `export KEY=value` line binds the variable, anything else is ignored. -/
def parseExportLine (line : Str) : Option (Str × Str) :=
  if exportTag.isPrefixOf line then splitFirstEq (line.drop exportTag.length)
  else none

/-- `eval "$(cat file)"` over a file of export lines: each line binds its
variable into the shell environment in order. -/
def evalExportScript (env : EnvMap) (content : Str) : EnvMap :=
  (splitLines content).foldl
    (fun e line =>
      match parseExportLine line with
      | some (k, v) => setVar e k v
      | none => e)
    env

/-- State of the wrapper shell: its exported environment and the content of
the credentials temp file `$HOME/.awsp-credentials` (`none` = absent). -/
structure ShellState where
  env : EnvMap
  credFile : Option Str

/-- `process_credentials_file` of the wrapper in silent mode: when the temp
file exists, evaluate its content into the current shell and delete it;
otherwise do nothing. -/
def process_credentials_file (s : ShellState) : ShellState :=
  match s.credFile with
  | some content =>
    { env := evalExportScript s.env content, credFile := none }
  | none => s

/-- The interactive branch of the wrapper after the Node selector returned:
`selectedFile` is the result of `cat ~/.awsp 2>/dev/null` (`none` = the file
is absent, read as empty).  Empty selection unsets both profile variables;
with a selection, an existing credentials file is consumed silently,
otherwise the plain profile name is exported twice. -/
def wrapperInteractive (s : ShellState) (selectedFile : Option Str) :
    ShellState :=
  let sel := selectedFile.getD []
  if sel = [] then
    { s with
      env := unsetVar (unsetVar s.env (chars "AWS_PROFILE"))
               (chars "AWS_DEFAULT_PROFILE") }
  else
    match s.credFile with
    | some _ => process_credentials_file s
    | none =>
      { s with
        env := setVar (setVar s.env (chars "AWS_PROFILE") sel)
                 (chars "AWS_DEFAULT_PROFILE") sel }

/-! ## The `_awsp` wrapper: argument handling -/

/-- The character class `[-a-zA-Z0-9+=,.@_/]` (written in the source with
the dash last) of the role-name part of the wrapper's ARN pattern. -/
def arnClassChar (c : Char) : Bool :=
  c.isAlpha || c.isDigit || c = '+' || c = '=' || c = ',' || c = '.' ||
  c = '@' || c = '_' || c = '/' || c = '-'

/-- The wrapper's `is_role_arn` test
`arn:aws:iam::` then exactly 12 digits, then `:role/` and one or more
role-name class characters, anchored at both ends. -/
def is_role_arn (input : Str) : Bool :=
  (chars "arn:aws:iam::").isPrefixOf input &&
  (let rest := input.drop (chars "arn:aws:iam::").length
   (rest.take 12).length = 12 && (rest.take 12).all Char.isDigit &&
   (let rest2 := rest.drop 12
    (chars ":role/").isPrefixOf rest2 &&
    (let name := rest2.drop (chars ":role/").length
     !name.isEmpty && name.all arnClassChar)))

/-- `assume_role_with_arn` of the wrapper, up to the point of issuing the
STS command: the session name is `awsp-$(date +%s)` with `ts` the epoch
text; with a non-empty `-m` code the MFA serial is looked up on the source
profile then on `default`, and a missing serial aborts (`none`) before any
call; otherwise the command carries no MFA parameters. -/
def assume_role_with_arn (store : Store) (ts role_arn source_profile
    mfa_code : Str) : Option StsCommand :=
  let sessionName := chars "awsp-" ++ ts
  if mfa_code = [] then
    some { profile := source_profile, roleArn := role_arn,
           sessionName := sessionName, mfa := none }
  else
    let serial :=
      match configureGet store source_profile (chars "mfa_serial") with
      | some s => s
      | none => (configureGet store (chars "default")
                   (chars "mfa_serial")).getD []
    if serial = [] then none
    else
      some { profile := source_profile, roleArn := role_arn,
             sessionName := sessionName, mfa := some (serial, mfa_code) }

/-- `assume_role_with_mfa` of the wrapper, up to the point of issuing the
STS command: both config lookups are command substitutions (failure reads
as empty), an empty `role_arn` or `mfa_serial` aborts (`none`); the command
uses the fixed `--profile default` and the `$profile-session` name. -/
def assume_role_with_mfa (store : Store) (profile mfa_code : Str) :
    Option StsCommand :=
  let role_arn := (configureGet store profile (chars "role_arn")).getD []
  let mfa_serial := (configureGet store profile (chars "mfa_serial")).getD []
  if role_arn = [] || mfa_serial = [] then none
  else
    some { profile := chars "default", roleArn := role_arn,
           sessionName := profile ++ chars "-session",
           mfa := some (mfa_serial, mfa_code) }

/-- The action the wrapper takes on a positional argument. -/
inductive WrapperAction where
  | arnAssume (cmd : Option StsCommand)
  | profileMfaAssume (cmd : Option StsCommand)
  | setProfile (p : Str)
deriving DecidableEq

/-- The wrapper's argument dispatch (the `$# -ge 1` branch): a role ARN is
assumed via `assume_role_with_arn` with the source profile defaulting to
`${AWS_PROFILE:-${AWS_DEFAULT_PROFILE:-default}}` when `-p` was not given;
a plain name with `-m` runs `assume_role_with_mfa`; a plain name without
`-m` is exported conventionally. -/
def argumentDispatch (env : EnvMap) (store : Store) (ts mfa_code
    source_profile argument : Str) : WrapperAction :=
  if is_role_arn argument then
    let sp :=
      if source_profile = [] then
        envGetD env (chars "AWS_PROFILE")
          (envGetD env (chars "AWS_DEFAULT_PROFILE") (chars "default"))
      else source_profile
    .arnAssume (assume_role_with_arn store ts argument sp mfa_code)
  else if mfa_code = [] then .setProfile argument
  else .profileMfaAssume (assume_role_with_mfa store argument mfa_code)

/-! ## Helper lemmas -/

theorem isPrefixOf_append_self (l t : Str) : l.isPrefixOf (l ++ t) = true := by
  induction l with
  | nil => simp
  | cons c l ih => simp [List.isPrefixOf, ih]

theorem splitFirstEq_append (k v : Str) (hk : '=' ∉ k) :
    splitFirstEq (k ++ '=' :: v) = some (k, v) := by
  induction k with
  | nil => simp [splitFirstEq]
  | cons c k ih =>
    have hc : c ≠ '=' := fun e => hk (e ▸ List.mem_cons_self c k)
    have h' : '=' ∉ k := fun hm => hk (List.mem_cons_of_mem _ hm)
    simp [splitFirstEq, hc, ih h']

theorem parseExportLine_exportLine (k v : Str) (hk : '=' ∉ k) :
    parseExportLine (exportLine k v) = some (k, v) := by
  unfold parseExportLine exportLine
  rw [if_pos (isPrefixOf_append_self _ _), List.drop_left,
    splitFirstEq_append _ _ hk]

theorem splitLines_append_cons (a b : Str) (h : '\n' ∉ a) :
    splitLines (a ++ '\n' :: b) = a :: splitLines b := by
  induction a with
  | nil => simp [splitLines]
  | cons c a ih =>
    have hc : c ≠ '\n' := fun e => h (e ▸ List.mem_cons_self c a)
    have h' : '\n' ∉ a := fun hm => h (List.mem_cons_of_mem _ hm)
    simp [splitLines, hc, ih h']

theorem splitLines_eq_single (a : Str) (h : '\n' ∉ a) : splitLines a = [a] := by
  induction a with
  | nil => rfl
  | cons c a ih =>
    have hc : c ≠ '\n' := fun e => h (e ▸ List.mem_cons_self c a)
    have h' : '\n' ∉ a := fun hm => h (List.mem_cons_of_mem _ hm)
    simp [splitLines, hc, ih h']

theorem exportLine_newline_not_mem (k v : Str) (hk : '\n' ∉ k)
    (hv : '\n' ∉ v) : '\n' ∉ exportLine k v := by
  intro hm
  simp only [exportLine, List.mem_append, List.mem_cons] at hm
  rcases hm with hm | hm | hm | hm
  · exact absurd hm (by decide)
  · exact hk hm
  · exact absurd hm (by decide)
  · exact hv hm

theorem splitLines_credentialsContent (ak sk st p : Str)
    (hak : '\n' ∉ ak) (hsk : '\n' ∉ sk) (hst : '\n' ∉ st) (hp : '\n' ∉ p) :
    splitLines (credentialsContent ak sk st p) =
      [exportLine (chars "AWS_ACCESS_KEY_ID") ak,
       exportLine (chars "AWS_SECRET_ACCESS_KEY") sk,
       exportLine (chars "AWS_REGION") awsRegionValue,
       exportLine (chars "AWS_SESSION_TOKEN") st,
       exportLine (chars "AWS_PROFILE") p,
       exportLine (chars "AWS_DEFAULT_PROFILE") p] := by
  unfold credentialsContent
  rw [splitLines_append_cons _ _ (exportLine_newline_not_mem _ _ (by decide) hak),
    splitLines_append_cons _ _ (exportLine_newline_not_mem _ _ (by decide) hsk),
    splitLines_append_cons _ _ (exportLine_newline_not_mem _ _ (by decide) (by decide)),
    splitLines_append_cons _ _ (exportLine_newline_not_mem _ _ (by decide) hst),
    splitLines_append_cons _ _ (exportLine_newline_not_mem _ _ (by decide) hp),
    splitLines_eq_single _ (exportLine_newline_not_mem _ _ (by decide) hp)]


/-- Characterisation of the rejection condition of the MFA `validate`
callback: it is false exactly on six-character all-digit inputs. -/
theorem mfaCondition_eq_false (v : Str) :
    (v.isEmpty || v.length != 6 || !mfaRegexTest v) = false ↔
    v.length = 6 ∧ ∀ c ∈ v, c.isDigit := by
  constructor
  · intro h
    simp [mfaRegexTest, List.isEmpty_iff] at h
    exact ⟨h.1.2, h.2.2⟩
  · rintro ⟨h6, hd⟩
    have hne : v ≠ [] := by intro e; rw [e] at h6; cases h6
    have h1 : v.isEmpty = false := by simp [List.isEmpty_iff, hne]
    have h2 : (v.length != 6) = false := by simp [h6]
    have h3 : mfaRegexTest v = true := by
      simp only [mfaRegexTest, h1, Bool.not_false, Bool.true_and,
        List.all_eq_true]
      exact hd
    rw [h1, h2, h3]
    rfl

/-- C2: the MFA code validator accepts an input exactly when it consists of
six ASCII digits; every other input yields the fixed re-prompt message (the
prompt library re-asks), never an error. -/
theorem c2_mfa_validation (v : Str) :
    (mfaValidate v = .accept ↔ v.length = 6 ∧ ∀ c ∈ v, c.isDigit) ∧
    (mfaValidate v = .accept ∨ mfaValidate v = .reprompt mfaErrorMsg) := by
  constructor
  · unfold mfaValidate
    split
    next h =>
      constructor
      · intro hc; cases hc
      · intro hr
        exact absurd ((mfaCondition_eq_false v).mpr hr) (by simp [h])
    next h =>
      simp only [Bool.not_eq_true] at h
      exact iff_of_true rfl ((mfaCondition_eq_false v).mp h)
  · unfold mfaValidate
    split
    · right; rfl
    · left; rfl

/-- C3: the role-capability check returns true exactly when both the
`role_arn` and the `mfa_serial` queries succeed with values that are
non-empty after trimming; a failing query or an empty value makes the
profile not assume-role-capable, and the check always returns a boolean
rather than raising. -/
theorem c3_role_capability (store : Store) (p : Str) :
    hasRoleConfiguration store p = true ↔
      (∃ ra, configureGet store p (chars "role_arn") = some ra ∧
        jsTrim ra ≠ []) ∧
      (∃ ms, configureGet store p (chars "mfa_serial") = some ms ∧
        jsTrim ms ≠ []) := by
  cases hra : configureGet store p (chars "role_arn") with
  | none => simp [hasRoleConfiguration, hra]
  | some ra =>
    cases hms : configureGet store p (chars "mfa_serial") with
    | none => simp [hasRoleConfiguration, hra, hms]
    | some ms => simp [hasRoleConfiguration, hra, hms, List.isEmpty_iff]

/-- C9 (amended): whenever `performAssumeRole` returns failure — failing
config lookup, failing AssumeRole command, unparsable JSON, or a response
whose `Credentials` property is missing or null — the credentials temp file
is left exactly as it was; the write happens only on the success path.
(The original claim also counted a response with a `Credentials` object but
missing individual fields as a failure; the code instead succeeds there and
writes the literal text `undefined`, see the counterexample.) -/
theorem c9_failure_leaves_file_amended (env : JsEnv) (cf0 : Option Str)
    (p code : Str) (h : (performAssumeRole env cf0 p code).1 = false) :
    (performAssumeRole env cf0 p code).2 = cf0 := by
  unfold performAssumeRole at h ⊢
  cases h1 : assumeRoleCommandJs env.store p code with
  | none => simp [h1]
  | some cmd =>
    cases h2 : env.sts cmd with
    | none => simp [h1, h2]
    | some json =>
      cases h3 : extractCreds json with
      | none => simp [h1, h2, h3]
      | some trip =>
        rcases trip with ⟨ak, sk, st⟩
        simp [h1, h2, h3] at h

/-- C9 counterexample: for the response `{"Credentials":{}}` — which
cannot be parsed into the three credential fields — `performAssumeRole`
returns success and writes the temp file with `undefined` values, contrary
to the claim that it returns failure and leaves the file unwritten. -/
theorem c9_missing_fields_counterexample :
    performAssumeRole
      { store := [((chars "p", chars "role_arn"),
                   chars "arn:aws:iam::123456789012:role/R"),
                  ((chars "p", chars "mfa_serial"),
                   chars "arn:aws:iam::123456789012:mfa/U")],
        sts := fun _ => some (.obj [(chars "Credentials", .obj [])]) }
      none (chars "p") (chars "123456") =
    (true, some (credentialsContent (chars "undefined") (chars "undefined")
      (chars "undefined") (chars "p"))) := rfl

/-- C9 witness: at a concrete environment whose AssumeRole command fails,
the credentials temp file stays absent. -/
theorem c9_failure_witness :
    (performAssumeRole { store := [], sts := fun _ => none } none
      (chars "p") (chars "123456")).2 = none :=
  c9_failure_leaves_file_amended _ _ _ _ rfl

/-- C7: on config content with zero `[profile ...]` headings, the prompt
step returns no selection, the guidance is printed, and `main` exits with
code 0 leaving the profile file and the credentials file untouched. -/
theorem c7_no_profiles (js : JsEnv) (ui : PromptEnv)
    (pf0 cf0 : Option Str) (data : Str)
    (h : scanProfileMatches data = []) :
    promptProfileChoices data = none ∧
    mainRun js ui pf0 cf0 data =
      { profileFile := pf0, credFile := cf0, exitCode := 0,
        printedGuidance := true } := by
  have hc : promptProfileChoices data = none := by
    simp [promptProfileChoices, h]
  exact ⟨hc, by simp [mainRun, hc]⟩

/-- C10: in every interactive run in which a choice list is offered, the
selected profile name ends up in the profile file, whatever the
role-capability check, the MFA prompt and the AssumeRole call then do —
in particular also on the exit-code-1 paths. -/
theorem c10_profile_persisted_first (js : JsEnv) (ui : PromptEnv)
    (pf0 cf0 : Option Str) (data : Str) (choices : List Str)
    (h : promptProfileChoices data = some choices) :
    (mainRun js ui pf0 cf0 data).profileFile = some (ui.choose choices) := by
  unfold mainRun
  rw [h]
  by_cases hr : hasRoleConfiguration js.store (ui.choose choices) = true
  · simp only [hr, if_true]
    cases hmi : ui.mfaInput with
    | none => rfl
    | some code =>
      rcases hpa : performAssumeRole js cf0 (ui.choose choices) code with
        ⟨b, cred⟩
      cases b <;> simp [hpa]
  · simp only [Bool.not_eq_true] at hr
    simp [hr]

/-- C1 counterexample: the config content `[profile default]` has one
distinct heading, yet the offered choice list is `default, default`,
which contains a duplicate — refuting the claim that the list has no
duplicates even when `[profile default]` is among the headings. -/
theorem c1_duplicate_default_counterexample :
    promptProfileChoices (chars "[profile default]") =
      some [defaultProfileName, defaultProfileName] ∧
    ¬ ([defaultProfileName, defaultProfileName] : List Str).Nodup :=
  ⟨by decide, by decide⟩

/-- C1 (amended): for config content whose extracted heading names are
`names` (non-empty), the offered choice list is exactly `names` followed by
the literal `default` — hence N+1 entries for N headings — and it is
duplicate-free exactly when the names are distinct and `default` is not
among them; when a heading `[profile default]` occurs, `default` appears
twice. -/
theorem c1_choice_list_amended (data : Str) (names : List Str)
    (h : (scanProfileMatches data).map stripBrackets = names)
    (hne : names ≠ []) :
    promptProfileChoices data = some (names ++ [defaultProfileName]) ∧
    (names ++ [defaultProfileName]).length = names.length + 1 ∧
    ((names ++ [defaultProfileName]).Nodup ↔
      names.Nodup ∧ defaultProfileName ∉ names) := by
  have hm : scanProfileMatches data ≠ [] := by
    intro he
    exact hne (by rw [← h, he]; rfl)
  refine ⟨?_, by simp, ?_⟩
  · simp only [promptProfileChoices, h]
    rw [if_neg (by simp [List.isEmpty_iff, hm])]
  · simp [List.nodup_append]

/-- C1 witness: the single heading `[profile foo]` yields the two-entry
duplicate-free choice list `foo, default`. -/
theorem c1_choice_list_witness :
    promptProfileChoices (chars "[profile foo]") =
      some ([chars "foo"] ++ [defaultProfileName]) ∧
    (([chars "foo"] : List Str) ++ [defaultProfileName]).length =
      ([chars "foo"] : List Str).length + 1 ∧
    ((([chars "foo"] : List Str) ++ [defaultProfileName]).Nodup ↔
      ([chars "foo"] : List Str).Nodup ∧
        defaultProfileName ∉ ([chars "foo"] : List Str)) :=
  c1_choice_list_amended (chars "[profile foo]") [chars "foo"]
    (by decide) (by decide)

/-- C8: both profile-based assume-role paths — `performAssumeRole` in
index.js and `assume_role_with_mfa` in the wrapper — invoke AssumeRole with
the fixed source profile `default`, the session name `<profile>-session`,
the profile's role ARN and MFA serial, and the supplied MFA code. -/
theorem c8_assume_role_invocation (store : Store) (p code ra ms : Str)
    (hra : configureGet store p (chars "role_arn") = some ra)
    (hms : configureGet store p (chars "mfa_serial") = some ms)
    (hra' : ra ≠ []) (hms' : ms ≠ []) :
    assumeRoleCommandJs store p code =
      some { profile := chars "default", roleArn := jsTrim ra,
             sessionName := p ++ chars "-session",
             mfa := some (jsTrim ms, code) } ∧
    assume_role_with_mfa store p code =
      some { profile := chars "default", roleArn := ra,
             sessionName := p ++ chars "-session",
             mfa := some (ms, code) } := by
  constructor
  · simp [assumeRoleCommandJs, hra, hms]
  · simp [assume_role_with_mfa, hra, hms, hra', hms']

/-- C8 witness: concrete store with a `prod` profile carrying a role ARN
and an MFA serial. -/
theorem c8_assume_role_witness :
    assumeRoleCommandJs
        [((chars "prod", chars "role_arn"), chars "arn:aws:iam::123456789012:role/R"),
         ((chars "prod", chars "mfa_serial"), chars "arn:aws:iam::123456789012:mfa/U")]
        (chars "prod") (chars "123456") =
      some { profile := chars "default",
             roleArn := jsTrim (chars "arn:aws:iam::123456789012:role/R"),
             sessionName := chars "prod" ++ chars "-session",
             mfa := some (jsTrim (chars "arn:aws:iam::123456789012:mfa/U"),
                          chars "123456") } ∧
    assume_role_with_mfa
        [((chars "prod", chars "role_arn"), chars "arn:aws:iam::123456789012:role/R"),
         ((chars "prod", chars "mfa_serial"), chars "arn:aws:iam::123456789012:mfa/U")]
        (chars "prod") (chars "123456") =
      some { profile := chars "default",
             roleArn := chars "arn:aws:iam::123456789012:role/R",
             sessionName := chars "prod" ++ chars "-session",
             mfa := some (chars "arn:aws:iam::123456789012:mfa/U",
                          chars "123456") } :=
  c8_assume_role_invocation _ _ _ _ _ rfl rfl (by decide) (by decide)

/-- C6: dispatching the positional argument
`arn:aws:iam::123456789012:role/MyRole` with no `-m` code (and no `-p`, no
profile variables in the environment) performs ARN-based assumption with
source profile `default` and no MFA parameters; with `-m 123456` and an MFA
serial configured for `default`, the serial-number and token-code
parameters are included. -/
theorem c6_arn_assumption_mfa_params (env : EnvMap) (store : Store)
    (ts serial : Str)
    (hP : env.lookup (chars "AWS_PROFILE") = none)
    (hD : env.lookup (chars "AWS_DEFAULT_PROFILE") = none)
    (hs : configureGet store (chars "default") (chars "mfa_serial") =
      some serial)
    (hne : serial ≠ []) :
    argumentDispatch env store ts [] []
        (chars "arn:aws:iam::123456789012:role/MyRole") =
      .arnAssume (some
        { profile := chars "default",
          roleArn := chars "arn:aws:iam::123456789012:role/MyRole",
          sessionName := chars "awsp-" ++ ts,
          mfa := none }) ∧
    argumentDispatch env store ts (chars "123456") []
        (chars "arn:aws:iam::123456789012:role/MyRole") =
      .arnAssume (some
        { profile := chars "default",
          roleArn := chars "arn:aws:iam::123456789012:role/MyRole",
          sessionName := chars "awsp-" ++ ts,
          mfa := some (serial, chars "123456") }) := by
  have harn : is_role_arn (chars "arn:aws:iam::123456789012:role/MyRole") =
      true := by decide
  constructor
  · simp [argumentDispatch, harn, envGetD, hP, hD, assume_role_with_arn]
  · simp [argumentDispatch, harn, envGetD, hP, hD, assume_role_with_arn,
      hs, hne]
    decide

/-- C6 witness: concrete empty environment and a store carrying an MFA
serial for the `default` profile. -/
theorem c6_arn_assumption_witness :
    argumentDispatch []
        [((chars "default", chars "mfa_serial"),
          chars "arn:aws:iam::123456789012:mfa/U")]
        (chars "1700000000") [] []
        (chars "arn:aws:iam::123456789012:role/MyRole") =
      .arnAssume (some
        { profile := chars "default",
          roleArn := chars "arn:aws:iam::123456789012:role/MyRole",
          sessionName := chars "awsp-" ++ chars "1700000000",
          mfa := none }) ∧
    argumentDispatch []
        [((chars "default", chars "mfa_serial"),
          chars "arn:aws:iam::123456789012:mfa/U")]
        (chars "1700000000") (chars "123456") []
        (chars "arn:aws:iam::123456789012:role/MyRole") =
      .arnAssume (some
        { profile := chars "default",
          roleArn := chars "arn:aws:iam::123456789012:role/MyRole",
          sessionName := chars "awsp-" ++ chars "1700000000",
          mfa := some (chars "arn:aws:iam::123456789012:mfa/U",
                       chars "123456") }) :=
  c6_arn_assumption_mfa_params _ _ _ _ rfl rfl rfl (by decide)

/-- C7 witness: concrete heading-free content and a concrete
environment. -/
theorem c7_no_profiles_witness :
    promptProfileChoices (chars "no headings here") = none ∧
    mainRun { store := [], sts := fun _ => none }
        { choose := fun _ => [], mfaInput := none } none none
        (chars "no headings here") =
      { profileFile := none, credFile := none, exitCode := 0,
        printedGuidance := true } :=
  c7_no_profiles _ _ _ _ _ (by decide)

/-- C10 witness: a concrete run selecting `foo` from `[profile foo]`
content persists `foo` to the profile file. -/
theorem c10_profile_persisted_witness :
    (mainRun { store := [], sts := fun _ => none }
        { choose := fun _ => chars "foo", mfaInput := none } none none
        (chars "[profile foo]")).profileFile =
      some ((fun _ => chars "foo") [chars "foo", defaultProfileName]) :=
  c10_profile_persisted_first _ _ _ _ _
    [chars "foo", defaultProfileName] (by decide)

/-- C4: given a parsed AssumeRole response carrying the three credential
string fields, `performAssumeRole` succeeds and replaces whatever the
credentials temp file held with exactly the six export lines: the three
credential values, the fixed region constant, and the profile name as the
value of both `AWS_PROFILE` and `AWS_DEFAULT_PROFILE`. -/
theorem c4_credential_sink (env : JsEnv) (cf0 : Option Str)
    (p code ra ms ak sk st : Str)
    (hra : configureGet env.store p (chars "role_arn") = some ra)
    (hms : configureGet env.store p (chars "mfa_serial") = some ms)
    (hsts : env.sts
        { profile := chars "default",
          roleArn := jsTrim ra,
          sessionName := p ++ chars "-session",
          mfa := some (jsTrim ms, code) } =
      some (.obj [(chars "Credentials",
        .obj [(chars "AccessKeyId", .str ak),
              (chars "SecretAccessKey", .str sk),
              (chars "SessionToken", .str st)])]))
    (hak : '\n' ∉ ak) (hsk : '\n' ∉ sk) (hst : '\n' ∉ st) (hp : '\n' ∉ p) :
    performAssumeRole env cf0 p code =
      (true, some (credentialsContent ak sk st p)) ∧
    splitLines (credentialsContent ak sk st p) =
      [exportLine (chars "AWS_ACCESS_KEY_ID") ak,
       exportLine (chars "AWS_SECRET_ACCESS_KEY") sk,
       exportLine (chars "AWS_REGION") awsRegionValue,
       exportLine (chars "AWS_SESSION_TOKEN") st,
       exportLine (chars "AWS_PROFILE") p,
       exportLine (chars "AWS_DEFAULT_PROFILE") p] := by
  have hcmd : assumeRoleCommandJs env.store p code =
      some { profile := chars "default",
             roleArn := jsTrim ra,
             sessionName := p ++ chars "-session",
             mfa := some (jsTrim ms, code) } := by
    simp [assumeRoleCommandJs, hra, hms]
  have hex : extractCreds (.obj [(chars "Credentials",
      .obj [(chars "AccessKeyId", .str ak),
            (chars "SecretAccessKey", .str sk),
            (chars "SessionToken", .str st)])]) =
      some (.str ak, .str sk, .str st) := rfl
  constructor
  · simp [performAssumeRole, hcmd, hsts, hex, jsToString]
  · exact splitLines_credentialsContent ak sk st p hak hsk hst hp

/-- C5: when the wrapper's interactive branch consumes an existing
credentials temp file (non-empty selection), afterwards the file no longer
exists and the exported `AWS_PROFILE` and `AWS_DEFAULT_PROFILE` both equal
the profile name embedded in the file's `AWS_PROFILE` line. -/
theorem c5_wrapper_consumes_credentials (e0 : EnvMap) (sel ak sk st p : Str)
    (hsel : sel ≠ [])
    (hak : '\n' ∉ ak) (hsk : '\n' ∉ sk) (hst : '\n' ∉ st) (hp : '\n' ∉ p) :
    (wrapperInteractive ⟨e0, some (credentialsContent ak sk st p)⟩
        (some sel)).credFile = none ∧
    (wrapperInteractive ⟨e0, some (credentialsContent ak sk st p)⟩
        (some sel)).env.lookup (chars "AWS_PROFILE") = some p ∧
    (wrapperInteractive ⟨e0, some (credentialsContent ak sk st p)⟩
        (some sel)).env.lookup (chars "AWS_DEFAULT_PROFILE") = some p := by
  have hw : wrapperInteractive ⟨e0, some (credentialsContent ak sk st p)⟩
      (some sel) =
      ⟨evalExportScript e0 (credentialsContent ak sk st p), none⟩ := by
    simp [wrapperInteractive, hsel, process_credentials_file]
  have p1 := parseExportLine_exportLine (chars "AWS_ACCESS_KEY_ID") ak
    (by decide)
  have p2 := parseExportLine_exportLine (chars "AWS_SECRET_ACCESS_KEY") sk
    (by decide)
  have p3 := parseExportLine_exportLine (chars "AWS_REGION") awsRegionValue
    (by decide)
  have p4 := parseExportLine_exportLine (chars "AWS_SESSION_TOKEN") st
    (by decide)
  have p5 := parseExportLine_exportLine (chars "AWS_PROFILE") p (by decide)
  have p6 := parseExportLine_exportLine (chars "AWS_DEFAULT_PROFILE") p
    (by decide)
  have heval : evalExportScript e0 (credentialsContent ak sk st p) =
      (chars "AWS_DEFAULT_PROFILE", p) :: (chars "AWS_PROFILE", p) ::
      (chars "AWS_SESSION_TOKEN", st) ::
      (chars "AWS_REGION", awsRegionValue) ::
      (chars "AWS_SECRET_ACCESS_KEY", sk) ::
      (chars "AWS_ACCESS_KEY_ID", ak) :: e0 := by
    unfold evalExportScript
    rw [splitLines_credentialsContent ak sk st p hak hsk hst hp]
    simp [List.foldl, p1, p2, p3, p4, p5, p6, setVar]
  have b1 : (chars "AWS_PROFILE" == chars "AWS_DEFAULT_PROFILE") = false := by
    decide
  have b2 : (chars "AWS_PROFILE" == chars "AWS_PROFILE") = true := by decide
  have b3 : (chars "AWS_DEFAULT_PROFILE" == chars "AWS_DEFAULT_PROFILE") =
      true := by decide
  rw [hw]
  refine ⟨rfl, ?_, ?_⟩
  · show List.lookup _ _ = _
    rw [heval]
    simp [List.lookup, b1, b2]
  · show List.lookup _ _ = _
    rw [heval]
    simp [List.lookup, b3]

/-- C4 witness: the claim's concrete response with `AKIA1`, `SECRET1`,
`TOKEN1` and profile `myprofile`. -/
theorem c4_credential_sink_witness :
    performAssumeRole
      { store := [((chars "myprofile", chars "role_arn"),
                   chars "arn:aws:iam::123456789012:role/R"),
                  ((chars "myprofile", chars "mfa_serial"),
                   chars "arn:aws:iam::123456789012:mfa/U")],
        sts := fun _ => some (.obj [(chars "Credentials",
          .obj [(chars "AccessKeyId", .str (chars "AKIA1")),
                (chars "SecretAccessKey", .str (chars "SECRET1")),
                (chars "SessionToken", .str (chars "TOKEN1"))])]) }
      none (chars "myprofile") (chars "123456") =
      (true, some (credentialsContent (chars "AKIA1") (chars "SECRET1")
        (chars "TOKEN1") (chars "myprofile"))) ∧
    splitLines (credentialsContent (chars "AKIA1") (chars "SECRET1")
        (chars "TOKEN1") (chars "myprofile")) =
      [exportLine (chars "AWS_ACCESS_KEY_ID") (chars "AKIA1"),
       exportLine (chars "AWS_SECRET_ACCESS_KEY") (chars "SECRET1"),
       exportLine (chars "AWS_REGION") awsRegionValue,
       exportLine (chars "AWS_SESSION_TOKEN") (chars "TOKEN1"),
       exportLine (chars "AWS_PROFILE") (chars "myprofile"),
       exportLine (chars "AWS_DEFAULT_PROFILE") (chars "myprofile")] :=
  c4_credential_sink _ _ _ _ _ _ _ _ _ rfl rfl rfl (by decide) (by decide)
    (by decide) (by decide)

/-- C5 witness: consuming a concrete credentials file for profile
`myprofile` from an empty environment. -/
theorem c5_wrapper_consumes_witness :
    (wrapperInteractive
        ⟨[], some (credentialsContent (chars "AKIA1") (chars "SECRET1")
          (chars "TOKEN1") (chars "myprofile"))⟩
        (some (chars "myprofile"))).credFile = none ∧
    (wrapperInteractive
        ⟨[], some (credentialsContent (chars "AKIA1") (chars "SECRET1")
          (chars "TOKEN1") (chars "myprofile"))⟩
        (some (chars "myprofile"))).env.lookup (chars "AWS_PROFILE") =
      some (chars "myprofile") ∧
    (wrapperInteractive
        ⟨[], some (credentialsContent (chars "AKIA1") (chars "SECRET1")
          (chars "TOKEN1") (chars "myprofile"))⟩
        (some (chars "myprofile"))).env.lookup (chars "AWS_DEFAULT_PROFILE") =
      some (chars "myprofile") :=
  c5_wrapper_consumes_credentials [] (chars "myprofile") (chars "AKIA1")
    (chars "SECRET1") (chars "TOKEN1") (chars "myprofile") (by decide)
    (by decide) (by decide) (by decide) (by decide)
